import Mathlib

/-!
# sicklms.cpp: scan geometry, scaling and timing of the SICK LMS200 node

A shallow embedding of `src/sicklms.cpp`.

Conventions of the embedding:

* `float` and `double` values, `ros::Time` and `ros::Duration` are exact rationals (`ℚ`);
  rounding is not modelled.
* `uint32_t` values are natural numbers, reduced modulo `2 ^ 32` where the source can wrap.
* `M_PI`, `cos` and `sin` come from `<math.h>`; they are parameters of the definitions that
  use them.
* The types and the conversion `DoubleToSickScanResolution` of the sicktoolbox driver are not
  part of the repository; the enumerations list the enumerators the source names and the
  conversion is a parameter.
* Undefined behaviour of the source (division by zero, an index past `angles[181]`) is a
  `Fault`.
-/

namespace SickLMS

/-! ## Machine integers -/

/-- Number of values of a `uint32_t`. -/
def UINT32_RANGE : Nat := 2 ^ 32

/-- Subtraction of two `uint32_t` values, as in `n_range_values-1`: the difference modulo
`2 ^ 32`. -/
def u32_sub (a b : Nat) : Nat :=
  (((a : Int) - (b : Int)) % (UINT32_RANGE : Int)).toNat

/-- The C++ operator `||` on integer operands: `true` (1) when one operand is non-zero,
`false` (0) otherwise. -/
def logical_or (a b : Nat) : Nat :=
  if a ≠ 0 ∨ b ≠ 0 then 1 else 0

/-- Truncation toward zero of a rational. -/
def trunc (q : ℚ) : Int :=
  Int.tdiv q.num q.den

/-- The C function `fmod` for a divisor `y ≠ 0`: `x - trunc (x / y) * y`, with the sign of
`x`. The source calls it with `y = 1.0` only. -/
def fmod (x y : ℚ) : ℚ :=
  x - (trunc (x / y) : ℚ) * y

/-! ## Data -/

/-- What the source leaves undefined. -/
inductive Fault where
  | divisionByZero
  | indexOutOfRange
  deriving DecidableEq, Repr

/-- The `geometry_msgs::Point` of the marker. -/
structure Point where
  x : ℚ
  y : ℚ
  z : ℚ
  deriving DecidableEq, Repr

/-- The fields of `visualization_msgs::Marker` that `publish_scan` computes from its
arguments. -/
structure Marker where
  frame_id : String
  stamp : ℚ
  ns : String
  points : List Point
  deriving DecidableEq, Repr

/-- The enumerators of `SickLMS2xx::sick_lms_2xx_measuring_units_t` named in the source. -/
inductive sick_lms_2xx_measuring_units_t where
  | SICK_MEASURING_UNITS_CM
  | SICK_MEASURING_UNITS_MM
  | SICK_MEASURING_UNITS_UNKNOWN
  deriving DecidableEq, Repr

/-- The enumerators of `SickLMS2xx::sick_lms_2xx_scan_resolution_t` named in the source, and
the driver's value for an unrecognised resolution. -/
inductive sick_lms_2xx_scan_resolution_t where
  | SICK_SCAN_RESOLUTION_25
  | SICK_SCAN_RESOLUTION_50
  | SICK_SCAN_RESOLUTION_100
  | SICK_SCAN_RESOLUTION_UNKNOWN
  deriving DecidableEq, Repr

open sick_lms_2xx_measuring_units_t sick_lms_2xx_scan_resolution_t

/-! ## publish_scan -/

/-- Capacity of `float angles[181]`. -/
def ANGLES_CAPACITY : Nat := 181

/-- The label of the only `case` of the `switch` of `publish_scan`:
`(8191 || 8190 || 8189 || 8187 || 8186 || 8183)`. -/
def fault_case_label : Nat :=
  logical_or (logical_or (logical_or (logical_or (logical_or 8191 8190) 8189) 8187) 8186) 8183

/-- The body of the second loop of `publish_scan`: the `switch` on `range_values[i]`. -/
def switch_point (cos sin : ℚ → ℚ) (range_value : Nat) (scale : ℚ) (angle : ℚ) : Point :=
  if range_value = fault_case_label then
    { x := 0, y := 0, z := 0 }
  else
    { x := (range_value : ℚ) * scale * cos angle
      y := (range_value : ℚ) * scale * sin angle
      z := 0 }

/-- The first loop of `publish_scan`, `angles[i] = angle_min + angle_increment*i`, with
`remaining` iterations left at index `i`. -/
def fill_angles (angle_min angle_increment : ℚ) :
    (remaining : Nat) → (i : Nat) → Array ℚ → Except Fault (Array ℚ)
  | 0, _, angles => .ok angles
  | remaining + 1, i, angles =>
    if h : i < angles.size then
      fill_angles angle_min angle_increment remaining (i + 1)
        (angles.set ⟨i, h⟩ (angle_min + angle_increment * (i : ℚ)))
    else
      .error Fault.indexOutOfRange

/-- The second loop of `publish_scan`, which pushes one point per sample, with `remaining`
iterations left at index `i`. -/
def push_points (cos sin : ℚ → ℚ) (range_values : Nat → Nat) (scale : ℚ) (angles : Array ℚ) :
    (remaining : Nat) → (i : Nat) → List Point → Except Fault (List Point)
  | 0, _, points => .ok points
  | remaining + 1, i, points =>
    if h : i < angles.size then
      push_points cos sin range_values scale angles remaining (i + 1)
        (points ++ [switch_point cos sin (range_values i) scale (angles.get ⟨i, h⟩)])
    else
      .error Fault.indexOutOfRange

/-- The `angles` array of `publish_scan` after its first loop (lines 71 to 88): the swap of
the bounds when `inverted`, the increment, and the fill. The array is uninitialised in the
source; the embedding starts it at 0. -/
def publish_scan_angles (n_range_values : Nat) (inverted : Bool) (angle_min angle_max : ℚ) :
    Except Fault (Array ℚ) :=
  let angle_max1 := if inverted then angle_min else angle_max
  let angle_min1 := if inverted then angle_max else angle_min
  let divisor := u32_sub n_range_values 1
  if divisor = 0 then
    .error Fault.divisionByZero
  else
    let angle_increment := (angle_max1 - angle_min1) / (divisor : ℚ)
    fill_angles angle_min1 angle_increment n_range_values 0 (mkArray ANGLES_CAPACITY 0)

/-- The function `publish_scan`: the marker handed to `marker_pub->publish`. -/
def publish_scan (cos sin : ℚ → ℚ) (range_values : Nat → Nat) (n_range_values : Nat)
    (scale : ℚ) (start : ℚ) (inverted : Bool) (angle_min angle_max : ℚ)
    (frame_id node_name : String) : Except Fault Marker :=
  match publish_scan_angles n_range_values inverted angle_min angle_max with
  | .error e => .error e
  | .ok angles =>
    match push_points cos sin range_values scale angles n_range_values 0 [] with
    | .error e => .error e
    | .ok points =>
      .ok { frame_id := frame_id, stamp := start, ns := node_name, points := points }

/-! ## StringToLmsMeasuringUnits -/

/-- The function `StringToLmsMeasuringUnits`. -/
def StringToLmsMeasuringUnits (units : String) : sick_lms_2xx_measuring_units_t :=
  if units = "mm" then SICK_MEASURING_UNITS_MM
  else if units = "cm" then SICK_MEASURING_UNITS_CM
  else SICK_MEASURING_UNITS_UNKNOWN

/-! ## main: startup -/

/-- A fatal error of `main`: the text given to `ROS_ERROR` and the value returned. -/
structure Failure where
  message : String
  status : Nat
  deriving DecidableEq, Repr

/-- Lines 241 to 249 of `main`: the scale for the resolved measuring units. -/
def choose_scale (actual_units : sick_lms_2xx_measuring_units_t) : Except Failure ℚ :=
  if actual_units = SICK_MEASURING_UNITS_CM then .ok (1 / 100)
  else if actual_units = SICK_MEASURING_UNITS_MM then .ok (1 / 1000)
  else .error ⟨"Invalid measuring unit.", 1⟩

/-- Lines 255 to 287 of `main`: the scan time for the resolved angle and resolution. -/
def compute_scan_time (DoubleToSickScanResolution : ℚ → sick_lms_2xx_scan_resolution_t)
    (angle : Int) (resolution : ℚ) : Except Failure ℚ :=
  if angle = 180 then .ok (1 / 75)
  else
    let scan_resolution := DoubleToSickScanResolution resolution
    if scan_resolution = SICK_SCAN_RESOLUTION_25 then .ok (4 / 75)
    else if scan_resolution = SICK_SCAN_RESOLUTION_50 then .ok (2 / 75)
    else if scan_resolution = SICK_SCAN_RESOLUTION_100 then .ok (1 / 75)
    else .error ⟨"Bogus scan resolution.", 1⟩

/-- The variables of `main` that the scan loop reads, as set by lines 241 to 297. -/
structure Setup where
  scale : ℚ
  scan_time : ℚ
  angle_increment : ℚ
  angle_offset : ℚ
  deriving DecidableEq, Repr

/-- Lines 241 to 297 of `main`, from the resolved units, angle and resolution on. -/
def startup (DoubleToSickScanResolution : ℚ → sick_lms_2xx_scan_resolution_t)
    (actual_units : sick_lms_2xx_measuring_units_t) (angle : Int) (resolution : ℚ) :
    Except Failure Setup :=
  match choose_scale actual_units with
  | .error f => .error f
  | .ok scale =>
    match compute_scan_time DoubleToSickScanResolution angle resolution with
    | .error f => .error f
    | .ok scan_time =>
      .ok { scale := scale, scan_time := scan_time, angle_increment := 1,
            angle_offset := (180 - (angle : ℚ)) / 2 }

/-! ## main: the scan loop -/

/-- Lines 310 to 335 of `main`: the bounds `(angle_min, angle_max)` of one batch. -/
def scan_bounds (M_PI : ℚ) (angle : Int) (angle_offset : ℚ) (partial_scan_index : Nat) :
    ℚ × ℚ :=
  if angle ≠ 180 then
    ((-90 + angle_offset) * M_PI / 180, (90 - angle_offset) * M_PI / 180)
  else
    let partialScanOffset : ℚ := (1 / 4) * (partial_scan_index : ℚ)
    ((-90 + angle_offset + partialScanOffset) * M_PI / 180,
     (90 - angle_offset - fmod (1 - partialScanOffset) 1) * M_PI / 180)

/-- Line 342 of `main`: `end_of_scan - ros::Duration(scan_time / 2.0) + time_offset`. -/
def scan_start (end_of_scan scan_time time_offset : ℚ) : ℚ :=
  end_of_scan - scan_time / 2 + time_offset

/-- What one iteration of the scan loop receives: the buffer and the counters the driver
filled, and the clock read by `ros::Time::now()`. -/
structure Acquisition where
  range_values : List Nat
  n_range_values : Nat
  partial_scan_index : Nat
  now : ℚ
  deriving DecidableEq, Repr

/-- The buffer `range_values` of `main`, zero-initialised, holding the given values. -/
def buffer (values : List Nat) : Nat → Nat :=
  fun i => values.getD i 0

/-- One iteration of the scan loop (lines 310 to 345): the marker published. -/
def scan_iteration (cos sin : ℚ → ℚ) (M_PI : ℚ) (setup : Setup) (angle : Int)
    (inverted : Bool) (time_offset : ℚ) (frame_id : String) (a : Acquisition) :
    Except Fault Marker :=
  let bounds := scan_bounds M_PI angle setup.angle_offset a.partial_scan_index
  let start := scan_start a.now setup.scan_time time_offset
  publish_scan cos sin (buffer a.range_values) a.n_range_values setup.scale start inverted
    bounds.1 bounds.2 frame_id "sicklms"

/-- The scan loop of `main` over the batches the driver delivers until `ros::ok()` turns
false: the markers published, in order. -/
def scan_loop (cos sin : ℚ → ℚ) (M_PI : ℚ) (setup : Setup) (angle : Int)
    (inverted : Bool) (time_offset : ℚ) (frame_id : String) :
    List Acquisition → Except Fault (List Marker)
  | [] => .ok []
  | a :: rest =>
    match scan_iteration cos sin M_PI setup angle inverted time_offset frame_id a with
    | .error e => .error e
    | .ok m =>
      match scan_loop cos sin M_PI setup angle inverted time_offset frame_id rest with
      | .error e => .error e
      | .ok ms => .ok (m :: ms)

/-- How a run of `main` ends: the value returned, the text of the fatal error if any, and
the markers published. -/
structure Outcome where
  status : Nat
  error : Option String
  published : List Marker
  deriving DecidableEq, Repr

/-- The function `main` from line 241 on, for a driver that answers every call: startup,
then the scan loop over the batches delivered. -/
def main (cos sin : ℚ → ℚ) (M_PI : ℚ)
    (DoubleToSickScanResolution : ℚ → sick_lms_2xx_scan_resolution_t)
    (actual_units : sick_lms_2xx_measuring_units_t) (angle : Int) (resolution : ℚ)
    (inverted : Bool) (time_offset : ℚ) (frame_id : String)
    (batches : List Acquisition) : Except Fault Outcome :=
  match startup DoubleToSickScanResolution actual_units angle resolution with
  | .error f => .ok { status := f.status, error := some f.message, published := [] }
  | .ok setup =>
    match scan_loop cos sin M_PI setup angle inverted time_offset frame_id batches with
    | .error e => .error e
    | .ok ms => .ok { status := 0, error := none, published := ms }

/-- Modelled from the spec: the driver's `DoubleToSickScanResolution`, which is not under
`src/`, with the three recognised resolutions 1.0, 0.5 and 0.25 degree of the spec. -/
def resolution_code (resolution : ℚ) : sick_lms_2xx_scan_resolution_t :=
  if resolution = 1 then SICK_SCAN_RESOLUTION_100
  else if resolution = 1 / 2 then SICK_SCAN_RESOLUTION_50
  else if resolution = 1 / 4 then SICK_SCAN_RESOLUTION_25
  else SICK_SCAN_RESOLUTION_UNKNOWN

/-! ## Lemmas -/

theorem u32_sub_one (n : Nat) (h1 : 1 ≤ n) (h2 : n < 2 ^ 32) : u32_sub n 1 = n - 1 := by
  unfold u32_sub UINT32_RANGE
  push_cast
  omega

theorem fill_angles_ok (angle_min angle_increment : ℚ) :
    ∀ (remaining i : Nat) (angles : Array ℚ), i + remaining ≤ angles.size →
      ∃ out, fill_angles angle_min angle_increment remaining i angles = .ok out ∧
        out.size = angles.size ∧
        (∀ j, i ≤ j → j < i + remaining →
          out[j]? = some (angle_min + angle_increment * (j : ℚ))) ∧
        (∀ j, j < i → out[j]? = angles[j]?) := by
  intro remaining
  induction remaining with
  | zero =>
    intro i angles _
    refine ⟨angles, rfl, rfl, ?_, fun _ _ => rfl⟩
    intro j h1 h2
    omega
  | succ k ih =>
    intro i angles h
    have hi : i < angles.size := by omega
    obtain ⟨out, hout, hsize, hnew, hold⟩ :=
      ih (i + 1) (angles.set ⟨i, hi⟩ (angle_min + angle_increment * (i : ℚ)))
        (by simp only [Array.size_set]; omega)
    refine ⟨out, ?_, ?_, ?_, ?_⟩
    · simp only [fill_angles, hi, dite_true]
      exact hout
    · simpa using hsize
    · intro j h1 h2
      by_cases hj : j = i
      · subst hj
        rw [hold j (Nat.lt_succ_self j)]
        exact Array.getElem?_set_eq angles ⟨j, hi⟩ _
      · exact hnew j (by omega) (by omega)
    · intro j hj
      rw [hold j (by omega)]
      exact Array.getElem?_set_ne angles ⟨i, hi⟩ _ (by simp only; omega)

theorem fill_angles_overflow (angle_min angle_increment : ℚ) :
    ∀ (remaining i : Nat) (angles : Array ℚ), i ≤ angles.size → angles.size < i + remaining →
      fill_angles angle_min angle_increment remaining i angles =
        .error Fault.indexOutOfRange := by
  intro remaining
  induction remaining with
  | zero =>
    intro i angles h1 h2
    omega
  | succ k ih =>
    intro i angles h1 h2
    by_cases hi : i < angles.size
    · simp only [fill_angles, hi, dite_true]
      exact ih (i + 1) _ (by simp only [Array.size_set]; omega)
        (by simp only [Array.size_set]; omega)
    · simp only [fill_angles, hi, dite_false]

theorem push_points_ok (cos sin : ℚ → ℚ) (range_values : Nat → Nat) (scale : ℚ)
    (angles : Array ℚ) :
    ∀ (remaining i : Nat) (points : List Point), i + remaining ≤ angles.size →
      push_points cos sin range_values scale angles remaining i points =
        .ok (points ++ (List.range' i remaining).map
          (fun j => switch_point cos sin (range_values j) scale (angles.getD j 0))) := by
  intro remaining
  induction remaining with
  | zero =>
    intro i points _
    simp [push_points]
  | succ k ih =>
    intro i points h
    have hi : i < angles.size := by omega
    simp only [push_points, hi, dite_true]
    rw [ih (i + 1) _ (by omega)]
    simp [List.range'_succ, Array.getD, hi]

theorem publish_scan_angles_ok (n : Nat) (inverted : Bool) (angle_min angle_max : ℚ)
    (h2 : 2 ≤ n) (h181 : n ≤ 181) :
    ∃ angles, publish_scan_angles n inverted angle_min angle_max = .ok angles ∧
      angles.size = 181 ∧
      ∀ i, i < n → angles[i]? = some
        ((if inverted then angle_max else angle_min) +
          ((if inverted then angle_min else angle_max) -
            (if inverted then angle_max else angle_min)) / ((n - 1 : Nat) : ℚ) * (i : ℚ)) := by
  have hsub : u32_sub n 1 = n - 1 := u32_sub_one n (by omega) (by omega)
  have hne : ¬ (n - 1 = 0) := by omega
  obtain ⟨out, hout, hsize, hnew, _⟩ :=
    fill_angles_ok (if inverted then angle_max else angle_min)
      (((if inverted then angle_min else angle_max) -
        (if inverted then angle_max else angle_min)) / ((n - 1 : Nat) : ℚ))
      n 0 (mkArray ANGLES_CAPACITY 0)
      (by simp only [Array.size_mkArray, ANGLES_CAPACITY]; omega)
  refine ⟨out, ?_, ?_, ?_⟩
  · simp only [publish_scan_angles, hsub, hne, if_false]
    exact hout
  · rw [hsize, Array.size_mkArray]
    rfl
  · intro i hi
    exact hnew i (Nat.zero_le i) (by omega)

theorem publish_scan_of_loops (cos sin : ℚ → ℚ) (range_values : Nat → Nat) (n : Nat)
    (scale start : ℚ) (inverted : Bool) (angle_min angle_max : ℚ)
    (frame_id node_name : String) (angles : Array ℚ) (points : List Point)
    (h1 : publish_scan_angles n inverted angle_min angle_max = .ok angles)
    (h2 : push_points cos sin range_values scale angles n 0 [] = .ok points) :
    publish_scan cos sin range_values n scale start inverted angle_min angle_max
        frame_id node_name =
      .ok { frame_id := frame_id, stamp := start, ns := node_name, points := points } := by
  simp only [publish_scan, h1, h2]

theorem publish_scan_ok (cos sin : ℚ → ℚ) (range_values : Nat → Nat) (n : Nat)
    (scale start : ℚ) (inverted : Bool) (angle_min angle_max : ℚ)
    (frame_id node_name : String) (h2 : 2 ≤ n) (h181 : n ≤ 181) :
    publish_scan cos sin range_values n scale start inverted angle_min angle_max
        frame_id node_name =
      .ok { frame_id := frame_id, stamp := start, ns := node_name,
            points := (List.range n).map (fun i =>
              switch_point cos sin (range_values i) scale
                ((if inverted then angle_max else angle_min) +
                  ((if inverted then angle_min else angle_max) -
                    (if inverted then angle_max else angle_min)) / ((n - 1 : Nat) : ℚ) *
                      (i : ℚ))) } := by
  obtain ⟨angles, hangles, hsize, hval⟩ :=
    publish_scan_angles_ok n inverted angle_min angle_max h2 h181
  have hget : ∀ j, j < n → angles.getD j 0 =
      (if inverted then angle_max else angle_min) +
        ((if inverted then angle_min else angle_max) -
          (if inverted then angle_max else angle_min)) / ((n - 1 : Nat) : ℚ) * (j : ℚ) := by
    intro j hjn
    have hjs : j < angles.size := by omega
    have hv := hval j hjn
    rw [Array.getElem?_eq_getElem hjs] at hv
    have hd : angles.getD j 0 = angles[j] := by
      simp only [Array.getD, hjs, dite_true]
      rfl
    rw [hd]
    exact Option.some.inj hv
  have hmap : (List.range' 0 n).map
      (fun j => switch_point cos sin (range_values j) scale (angles.getD j 0)) =
      (List.range n).map (fun i =>
        switch_point cos sin (range_values i) scale
          ((if inverted then angle_max else angle_min) +
            ((if inverted then angle_min else angle_max) -
              (if inverted then angle_max else angle_min)) / ((n - 1 : Nat) : ℚ) *
                (i : ℚ))) := by
    rw [List.range_eq_range']
    apply List.map_congr_left
    intro j hj
    have hjn : j < n := by
      have := List.mem_range'_1.mp hj
      omega
    rw [hget j hjn]
  have hpush := push_points_ok cos sin range_values scale angles n 0 [] (by omega)
  rw [List.nil_append, hmap] at hpush
  exact publish_scan_of_loops cos sin range_values n scale start inverted angle_min angle_max
    frame_id node_name angles _ hangles hpush

theorem publish_scan_angles_overflow (m : Nat) (inverted : Bool) (angle_min angle_max : ℚ)
    (hm : 181 < m) (hm32 : m < 2 ^ 32) :
    publish_scan_angles m inverted angle_min angle_max = .error Fault.indexOutOfRange := by
  have hsub : u32_sub m 1 = m - 1 := u32_sub_one m (by omega) hm32
  have hne : ¬ (m - 1 = 0) := by omega
  simp only [publish_scan_angles, hsub, hne, if_false]
  exact fill_angles_overflow _ _ m 0 _ (Nat.zero_le _)
    (by simp only [Array.size_mkArray, ANGLES_CAPACITY]; omega)

theorem publish_scan_error (cos sin : ℚ → ℚ) (range_values : Nat → Nat) (n : Nat)
    (scale start : ℚ) (inverted : Bool) (angle_min angle_max : ℚ)
    (frame_id node_name : String) (e : Fault)
    (h : publish_scan_angles n inverted angle_min angle_max = .error e) :
    publish_scan cos sin range_values n scale start inverted angle_min angle_max
        frame_id node_name = .error e := by
  simp only [publish_scan, h]

theorem u32_sub_one_one : u32_sub 1 1 = 0 := by
  unfold u32_sub UINT32_RANGE
  omega

theorem u32_sub_zero_one : u32_sub 0 1 = 2 ^ 32 - 1 := by
  unfold u32_sub UINT32_RANGE
  omega

theorem publish_scan_angles_one (inverted : Bool) (angle_min angle_max : ℚ) :
    publish_scan_angles 1 inverted angle_min angle_max = .error Fault.divisionByZero := by
  simp only [publish_scan_angles, u32_sub_one_one, if_true]

theorem fmod_one : fmod 1 1 = 0 := by
  norm_num [fmod, trunc]

theorem fmod_three_quarters : fmod (3 / 4) 1 = 3 / 4 := by
  have h : Int.tdiv 3 4 = 0 := by decide
  norm_num [fmod, trunc, h]

theorem fmod_half : fmod (1 / 2) 1 = 1 / 2 := by
  have h : Int.tdiv 1 2 = 0 := by decide
  norm_num [fmod, trunc, h]

theorem fmod_quarter : fmod (1 / 4) 1 = 1 / 4 := by
  have h : Int.tdiv 1 4 = 0 := by decide
  norm_num [fmod, trunc, h]

theorem fract_of_lt_one (q : ℚ) (h0 : 0 ≤ q) (h1 : q < 1) : Int.fract q = q := by
  rw [Int.fract_eq_iff]
  exact ⟨h0, h1, 0, by simp⟩

theorem last_angle (a b : ℚ) (n : Nat) (h2 : 2 ≤ n) :
    a + (b - a) / ((n - 1 : Nat) : ℚ) * ((n - 1 : Nat) : ℚ) = b := by
  have hne : ((n - 1 : Nat) : ℚ) ≠ 0 := by
    have : n - 1 ≠ 0 := by omega
    exact_mod_cast this
  rw [div_mul_cancel₀ _ hne]
  ring

theorem startup_angle_offset
    (DoubleToSickScanResolution : ℚ → sick_lms_2xx_scan_resolution_t)
    (actual_units : sick_lms_2xx_measuring_units_t) (angle : Int) (resolution : ℚ) :
    Except.map Setup.angle_offset
        (startup DoubleToSickScanResolution actual_units angle resolution) =
      Except.map (fun _ => (180 - (angle : ℚ)) / 2)
        (startup DoubleToSickScanResolution actual_units angle resolution) := by
  unfold startup
  cases choose_scale actual_units with
  | error f => rfl
  | ok scale =>
    cases compute_scan_time DoubleToSickScanResolution angle resolution with
    | error f => rfl
    | ok scan_time => rfl

theorem scan_bounds_full (M_PI : ℚ) (w : Int) (offset : ℚ) (k : Nat) (hk : w = 180 → k = 0) :
    scan_bounds M_PI w offset k = ((-90 + offset) * M_PI / 180, (90 - offset) * M_PI / 180) := by
  by_cases hw : w = 180
  · have hk0 := hk hw
    subst hk0
    simp only [scan_bounds, hw, ne_eq, not_true_eq_false, if_false, Nat.cast_zero, mul_zero,
      sub_zero, add_zero, fmod_one]
  · simp only [scan_bounds, ne_eq, hw, not_false_eq_true, if_true]

theorem mirrored_angle (a b : ℚ) (n i : Nat) (h2 : 2 ≤ n) (hi : i < n) :
    a + (b - a) / ((n - 1 : Nat) : ℚ) * ((n - 1 - i : Nat) : ℚ) =
      b + (a - b) / ((n - 1 : Nat) : ℚ) * (i : ℚ) := by
  have hne : ((n - 1 : Nat) : ℚ) ≠ 0 := by
    have : n - 1 ≠ 0 := by omega
    exact_mod_cast this
  have hcast : ((n - 1 - i : Nat) : ℚ) = ((n - 1 : Nat) : ℚ) - (i : ℚ) := by
    have : i ≤ n - 1 := by omega
    exact Nat.cast_sub this
  rw [hcast, mul_sub, div_mul_cancel₀ _ hne]
  ring

theorem decreasing_angle (a b : ℚ) (n i j : Nat) (hlt : a < b) (h2 : 2 ≤ n) (hij : i < j) :
    b + (a - b) / ((n - 1 : Nat) : ℚ) * (j : ℚ) < b + (a - b) / ((n - 1 : Nat) : ℚ) * (i : ℚ) := by
  have hpos : (0 : ℚ) < ((n - 1 : Nat) : ℚ) := by
    have : 0 < n - 1 := by omega
    exact_mod_cast this
  have hneg : (a - b) / ((n - 1 : Nat) : ℚ) < 0 := div_neg_of_neg_of_pos (by linarith) hpos
  have hcast : (i : ℚ) < (j : ℚ) := by exact_mod_cast hij
  exact add_lt_add_left (mul_lt_mul_of_neg_left hcast hneg) _

theorem fmod_of_index (k : Nat) (hk : k ≤ 3) :
    fmod (1 - (1 / 4) * (k : ℚ)) 1 = if k = 0 then 0 else 1 - (1 / 4) * (k : ℚ) := by
  interval_cases k
  · have h : (1 - (1 / 4) * ((0 : Nat) : ℚ)) = 1 := by norm_num
    rw [h, fmod_one]
    rfl
  · have h : (1 - (1 / 4) * ((1 : Nat) : ℚ)) = 3 / 4 := by norm_num
    rw [h, fmod_three_quarters]
    rfl
  · have h : (1 - (1 / 4) * ((2 : Nat) : ℚ)) = 1 / 2 := by norm_num
    rw [h, fmod_half]
    rfl
  · have h : (1 - (1 / 4) * ((3 : Nat) : ℚ)) = 1 / 4 := by norm_num
    rw [h, fmod_quarter]
    rfl

theorem scan_bounds_interleaved (M_PI : ℚ) (k : Nat) :
    scan_bounds M_PI 180 0 k =
      ((-90 + (1 / 4) * (k : ℚ)) * M_PI / 180,
       (90 - fmod (1 - (1 / 4) * (k : ℚ)) 1) * M_PI / 180) := by
  simp only [scan_bounds, ne_eq, not_true_eq_false, if_false, add_zero, sub_zero]

theorem fault_case_label_eq : fault_case_label = 1 := by
  decide

theorem switch_point_default (cos sin : ℚ → ℚ) (range_value : Nat) (scale angle : ℚ)
    (h : range_value ≠ 1) :
    switch_point cos sin range_value scale angle =
      { x := (range_value : ℚ) * scale * cos angle
        y := (range_value : ℚ) * scale * sin angle
        z := 0 } := by
  simp only [switch_point, fault_case_label_eq, h, if_false]

theorem switch_point_one (cos sin : ℚ → ℚ) (scale angle : ℚ) :
    switch_point cos sin 1 scale angle = { x := 0, y := 0, z := 0 } := by
  simp only [switch_point, fault_case_label_eq, if_true]

theorem publish_scan_stamp (cos sin : ℚ → ℚ) (range_values : Nat → Nat) (n : Nat)
    (scale start : ℚ) (inverted : Bool) (angle_min angle_max : ℚ)
    (frame_id node_name : String) :
    Except.map Marker.stamp
        (publish_scan cos sin range_values n scale start inverted angle_min angle_max
          frame_id node_name) =
      Except.map (fun _ => start)
        (publish_scan cos sin range_values n scale start inverted angle_min angle_max
          frame_id node_name) := by
  unfold publish_scan
  cases publish_scan_angles n inverted angle_min angle_max with
  | error e => rfl
  | ok angles =>
    dsimp only
    cases push_points cos sin range_values scale angles n 0 [] with
    | error e => rfl
    | ok points => rfl

theorem publish_scan_three (cos sin : ℚ → ℚ) (r0 r1 r2 : Nat) (scale start M_PI : ℚ)
    (frame_id node_name : String) :
    publish_scan cos sin (buffer [r0, r1, r2]) 3 scale start false
        (-90 * M_PI / 180) (90 * M_PI / 180) frame_id node_name =
      .ok { frame_id := frame_id, stamp := start, ns := node_name,
            points := [switch_point cos sin r0 scale (-M_PI / 2),
                       switch_point cos sin r1 scale 0,
                       switch_point cos sin r2 scale (M_PI / 2)] } := by
  rw [publish_scan_ok cos sin _ 3 scale start false _ _ frame_id node_name (by decide)
    (by decide)]
  have h0 : -90 * M_PI / 180 + (90 * M_PI / 180 - -90 * M_PI / 180) / ((3 - 1 : Nat) : ℚ) *
      ((0 : Nat) : ℚ) = -M_PI / 2 := by
    norm_num
    ring
  have h1 : -90 * M_PI / 180 + (90 * M_PI / 180 - -90 * M_PI / 180) / ((3 - 1 : Nat) : ℚ) *
      ((1 : Nat) : ℚ) = 0 := by
    norm_num
    ring
  have h2 : -90 * M_PI / 180 + (90 * M_PI / 180 - -90 * M_PI / 180) / ((3 - 1 : Nat) : ℚ) *
      ((2 : Nat) : ℚ) = M_PI / 2 := by
    norm_num
    ring
  have hr : List.range 3 = [0, 1, 2] := by decide
  simp only [hr, List.map_cons, List.map_nil, Bool.false_eq_true, if_false, h0, h1, h2]
  rfl

theorem compute_scan_time_180
    (DoubleToSickScanResolution : ℚ → sick_lms_2xx_scan_resolution_t) (resolution : ℚ) :
    compute_scan_time DoubleToSickScanResolution 180 resolution = .ok (1 / 75) := by
  simp only [compute_scan_time, if_true]

theorem startup_mm_180
    (DoubleToSickScanResolution : ℚ → sick_lms_2xx_scan_resolution_t) (resolution : ℚ) :
    startup DoubleToSickScanResolution SICK_MEASURING_UNITS_MM 180 resolution =
      .ok { scale := 1 / 1000, scan_time := 1 / 75, angle_increment := 1, angle_offset := 0 } := by
  have hs : choose_scale SICK_MEASURING_UNITS_MM = .ok (1 / 1000) := rfl
  have ho : (180 - ((180 : Int) : ℚ)) / 2 = 0 := by norm_num
  simp only [startup, hs, compute_scan_time_180, ho]

theorem main_three (cos sin : ℚ → ℚ) (M_PI : ℚ)
    (DoubleToSickScanResolution : ℚ → sick_lms_2xx_scan_resolution_t) (resolution : ℚ)
    (time_offset : ℚ) (frame_id : String) (r0 r1 r2 : Nat) (now : ℚ) :
    main cos sin M_PI DoubleToSickScanResolution SICK_MEASURING_UNITS_MM 180 resolution false
        time_offset frame_id
        [{ range_values := [r0, r1, r2], n_range_values := 3, partial_scan_index := 0,
           now := now }] =
      .ok { status := 0, error := none,
            published := [{ frame_id := frame_id,
                            stamp := now - (1 / 75) / 2 + time_offset,
                            ns := "sicklms",
                            points := [switch_point cos sin r0 (1 / 1000) (-M_PI / 2),
                                       switch_point cos sin r1 (1 / 1000) 0,
                                       switch_point cos sin r2 (1 / 1000) (M_PI / 2)] }] } := by
  have hb : scan_bounds M_PI 180 0 0 = (-90 * M_PI / 180, 90 * M_PI / 180) := by
    rw [scan_bounds_full M_PI 180 0 0 (fun _ => rfl)]
    norm_num
  simp only [main, startup_mm_180, scan_loop, scan_iteration, hb, publish_scan_three, scan_start]

theorem compute_scan_time_bogus
    (DoubleToSickScanResolution : ℚ → sick_lms_2xx_scan_resolution_t) (angle : Int)
    (resolution : ℚ) (hangle : angle ≠ 180)
    (h25 : DoubleToSickScanResolution resolution ≠ SICK_SCAN_RESOLUTION_25)
    (h50 : DoubleToSickScanResolution resolution ≠ SICK_SCAN_RESOLUTION_50)
    (h100 : DoubleToSickScanResolution resolution ≠ SICK_SCAN_RESOLUTION_100) :
    compute_scan_time DoubleToSickScanResolution angle resolution =
      .error ⟨"Bogus scan resolution.", 1⟩ := by
  simp only [compute_scan_time, hangle, h25, h50, h100, if_false]

theorem compute_scan_time_of_code
    (DoubleToSickScanResolution : ℚ → sick_lms_2xx_scan_resolution_t) (angle : Int)
    (resolution : ℚ) (hangle : angle ≠ 180) :
    (DoubleToSickScanResolution resolution = SICK_SCAN_RESOLUTION_100 →
      compute_scan_time DoubleToSickScanResolution angle resolution = .ok (1 / 75)) ∧
    (DoubleToSickScanResolution resolution = SICK_SCAN_RESOLUTION_50 →
      compute_scan_time DoubleToSickScanResolution angle resolution = .ok (2 / 75)) ∧
    (DoubleToSickScanResolution resolution = SICK_SCAN_RESOLUTION_25 →
      compute_scan_time DoubleToSickScanResolution angle resolution = .ok (4 / 75)) := by
  refine ⟨fun h => ?_, fun h => ?_, fun h => ?_⟩ <;>
    simp [compute_scan_time, hangle, h]

theorem choose_scale_of_ne (u : sick_lms_2xx_measuring_units_t)
    (hmm : u ≠ SICK_MEASURING_UNITS_MM) (hcm : u ≠ SICK_MEASURING_UNITS_CM) :
    choose_scale u = .error ⟨"Invalid measuring unit.", 1⟩ := by
  simp only [choose_scale, hmm, hcm, if_false]

theorem startup_scan_time
    (DoubleToSickScanResolution : ℚ → sick_lms_2xx_scan_resolution_t)
    (u : sick_lms_2xx_measuring_units_t) (angle : Int) (resolution t : ℚ)
    (hu : u ≠ SICK_MEASURING_UNITS_UNKNOWN)
    (ht : compute_scan_time DoubleToSickScanResolution angle resolution = .ok t) :
    Except.map Setup.scan_time (startup DoubleToSickScanResolution u angle resolution) =
      .ok t := by
  cases u with
  | SICK_MEASURING_UNITS_UNKNOWN => exact absurd rfl hu
  | SICK_MEASURING_UNITS_MM =>
    have hs : choose_scale SICK_MEASURING_UNITS_MM = .ok (1 / 1000) := rfl
    simp only [startup, hs, ht]
    rfl
  | SICK_MEASURING_UNITS_CM =>
    have hs : choose_scale SICK_MEASURING_UNITS_CM = .ok (1 / 100) := rfl
    simp only [startup, hs, ht]
    rfl

theorem startup_scale
    (DoubleToSickScanResolution : ℚ → sick_lms_2xx_scan_resolution_t)
    (u : sick_lms_2xx_measuring_units_t) (angle : Int) (resolution scale : ℚ)
    (hs : choose_scale u = .ok scale) :
    Except.map Setup.scale (startup DoubleToSickScanResolution u angle resolution) =
      Except.map (fun _ => scale) (startup DoubleToSickScanResolution u angle resolution) := by
  unfold startup
  rw [hs]
  dsimp only
  cases compute_scan_time DoubleToSickScanResolution angle resolution with
  | error f => rfl
  | ok t => rfl

theorem main_of_startup_error (cos sin : ℚ → ℚ) (M_PI : ℚ)
    (DoubleToSickScanResolution : ℚ → sick_lms_2xx_scan_resolution_t)
    (u : sick_lms_2xx_measuring_units_t) (angle : Int) (resolution : ℚ)
    (inverted : Bool) (time_offset : ℚ) (frame_id : String) (batches : List Acquisition)
    (f : Failure) (h : startup DoubleToSickScanResolution u angle resolution = .error f) :
    main cos sin M_PI DoubleToSickScanResolution u angle resolution inverted time_offset
        frame_id batches =
      .ok { status := f.status, error := some f.message, published := [] } := by
  simp only [main, h]

theorem resolution_code_one : resolution_code 1 = SICK_SCAN_RESOLUTION_100 := by
  norm_num [resolution_code]

theorem resolution_code_half : resolution_code (1 / 2) = SICK_SCAN_RESOLUTION_50 := by
  norm_num [resolution_code]

theorem resolution_code_quarter : resolution_code (1 / 4) = SICK_SCAN_RESOLUTION_25 := by
  norm_num [resolution_code]

theorem resolution_code_three_tenths :
    resolution_code (3 / 10) = SICK_SCAN_RESOLUTION_UNKNOWN := by
  norm_num [resolution_code]

/-! ## Claims -/

/-- C10: for every sample count `n` with `2 ≤ n ≤ 181`, `publish_scan` is safe: the
`uint32_t` divisor `n - 1` does not wrap and is not zero, the fill of `angles[181]` and the
reads from it stay in range (no `Fault`), and the marker holds exactly `n` points, point `i`
being the `switch` applied to raw sample `i` and `angles[i]`. The bound is needed: `n = 1`
divides by zero, `n = 0` wraps `n - 1` to `2 ^ 32 - 1`, and every count `m > 181` indexes
past the array. -/
theorem publish_scan_safe (cos sin : ℚ → ℚ) (range_values : Nat → Nat) (n m : Nat)
    (scale start : ℚ) (inverted : Bool) (angle_min angle_max : ℚ)
    (frame_id node_name : String)
    (h2 : 2 ≤ n) (h181 : n ≤ 181) (hm : 181 < m) (hm32 : m < 2 ^ 32) :
    u32_sub n 1 = n - 1 ∧ u32_sub n 1 ≠ 0 ∧
    (∃ angles, publish_scan_angles n inverted angle_min angle_max = .ok angles ∧
      angles.size = ANGLES_CAPACITY ∧
      publish_scan cos sin range_values n scale start inverted angle_min angle_max
          frame_id node_name =
        .ok { frame_id := frame_id, stamp := start, ns := node_name,
              points := (List.range n).map (fun i =>
                switch_point cos sin (range_values i) scale (angles.getD i 0)) } ∧
      ((List.range n).map (fun i =>
        switch_point cos sin (range_values i) scale (angles.getD i 0))).length = n) ∧
    u32_sub 1 1 = 0 ∧
    publish_scan cos sin range_values 1 scale start inverted angle_min angle_max
        frame_id node_name = .error Fault.divisionByZero ∧
    u32_sub 0 1 = 2 ^ 32 - 1 ∧
    publish_scan cos sin range_values m scale start inverted angle_min angle_max
        frame_id node_name = .error Fault.indexOutOfRange := by
  have hsub : u32_sub n 1 = n - 1 := u32_sub_one n (by omega) (by omega)
  refine ⟨hsub, ?_, ?_, u32_sub_one_one, ?_, u32_sub_zero_one, ?_⟩
  · rw [hsub]
    omega
  · obtain ⟨angles, hangles, hsize, _⟩ :=
      publish_scan_angles_ok n inverted angle_min angle_max h2 h181
    refine ⟨angles, hangles, hsize, ?_, ?_⟩
    · have hpush := push_points_ok cos sin range_values scale angles n 0 [] (by omega)
      rw [List.nil_append, ← List.range_eq_range'] at hpush
      exact publish_scan_of_loops cos sin range_values n scale start inverted angle_min
        angle_max frame_id node_name angles _ hangles hpush
    · rw [List.length_map, List.length_range]
  · exact publish_scan_error _ _ _ _ _ _ _ _ _ _ _ _ (publish_scan_angles_one _ _ _)
  · exact publish_scan_error _ _ _ _ _ _ _ _ _ _ _ _
      (publish_scan_angles_overflow m inverted angle_min angle_max hm hm32)

/-- Witness of C10: three samples, and 182 samples for the overflow. -/
theorem publish_scan_safe_witness :
    2 ≤ 3 ∧ 3 ≤ 181 ∧ 181 < 182 ∧ 182 < 2 ^ 32 ∧
    u32_sub 3 1 = 3 - 1 ∧ u32_sub 3 1 ≠ 0 ∧
    (∃ angles, publish_scan_angles 3 false 0 1 = .ok angles ∧
      angles.size = ANGLES_CAPACITY ∧
      publish_scan (fun _ => 1) (fun _ => 0) (buffer [1000, 8191, 2000]) 3 (1 / 1000) 0 false
          0 1 "laser" "sicklms" =
        .ok { frame_id := "laser", stamp := 0, ns := "sicklms",
              points := (List.range 3).map (fun i =>
                switch_point (fun _ => 1) (fun _ => 0) (buffer [1000, 8191, 2000] i) (1 / 1000)
                  (angles.getD i 0)) } ∧
      ((List.range 3).map (fun i =>
        switch_point (fun _ => 1) (fun _ => 0) (buffer [1000, 8191, 2000] i) (1 / 1000)
          (angles.getD i 0))).length = 3) ∧
    u32_sub 1 1 = 0 ∧
    publish_scan (fun _ => 1) (fun _ => 0) (buffer [1000, 8191, 2000]) 1 (1 / 1000) 0 false
        0 1 "laser" "sicklms" = .error Fault.divisionByZero ∧
    u32_sub 0 1 = 2 ^ 32 - 1 ∧
    publish_scan (fun _ => 1) (fun _ => 0) (buffer [1000, 8191, 2000]) 182 (1 / 1000) 0 false
        0 1 "laser" "sicklms" = .error Fault.indexOutOfRange :=
  ⟨by decide, by decide, by decide, by decide,
    publish_scan_safe (fun _ => 1) (fun _ => 0) (buffer [1000, 8191, 2000]) 3 182 (1 / 1000) 0
      false 0 1 "laser" "sicklms" (by decide) (by decide) (by decide) (by decide)⟩

/-- C3: for every scan width `w` and every sample count `n` with `2 ≤ n ≤ 181`, not inverted,
the bounds of the main loop (for `w = 180` with partial scan index 0) are
`angle_min = (-90 + (180 - w)/2) * M_PI / 180` and
`angle_max = (90 - (180 - w)/2) * M_PI / 180 = -angle_min`, where `(180 - w)/2` is the
`angle_offset` that startup sets, and the `angles` array of `publish_scan` starts and ends on
them: `angles[0] = angle_min`, `angles[n-1] = angle_max`. For `w = 180`, `n = 181` these are
`-M_PI/2` and `M_PI/2`, `angles[0] = -M_PI/2`, `angles[180] = M_PI/2`. -/
theorem scan_angles_reach_bounds (M_PI : ℚ) (w : Int) (n k : Nat)
    (DoubleToSickScanResolution : ℚ → sick_lms_2xx_scan_resolution_t)
    (actual_units : sick_lms_2xx_measuring_units_t) (resolution : ℚ)
    (h2 : 2 ≤ n) (h181 : n ≤ 181) (hk : w = 180 → k = 0) :
    Except.map Setup.angle_offset
        (startup DoubleToSickScanResolution actual_units w resolution) =
      Except.map (fun _ => (180 - (w : ℚ)) / 2)
        (startup DoubleToSickScanResolution actual_units w resolution) ∧
    scan_bounds M_PI w ((180 - (w : ℚ)) / 2) k =
      ((-90 + (180 - (w : ℚ)) / 2) * M_PI / 180, (90 - (180 - (w : ℚ)) / 2) * M_PI / 180) ∧
    (scan_bounds M_PI w ((180 - (w : ℚ)) / 2) k).2 =
      -(scan_bounds M_PI w ((180 - (w : ℚ)) / 2) k).1 ∧
    (∃ angles,
      publish_scan_angles n false (scan_bounds M_PI w ((180 - (w : ℚ)) / 2) k).1
        (scan_bounds M_PI w ((180 - (w : ℚ)) / 2) k).2 = .ok angles ∧
      angles[0]? = some (scan_bounds M_PI w ((180 - (w : ℚ)) / 2) k).1 ∧
      angles[n - 1]? = some (scan_bounds M_PI w ((180 - (w : ℚ)) / 2) k).2) ∧
    scan_bounds M_PI 180 ((180 - ((180 : Int) : ℚ)) / 2) 0 = (-M_PI / 2, M_PI / 2) ∧
    (∃ angles, publish_scan_angles 181 false (-M_PI / 2) (M_PI / 2) = .ok angles ∧
      angles[0]? = some (-M_PI / 2) ∧ angles[180]? = some (M_PI / 2)) := by
  have hb := scan_bounds_full M_PI w ((180 - (w : ℚ)) / 2) k hk
  refine ⟨startup_angle_offset _ _ _ _, hb, ?_, ?_, ?_, ?_⟩
  · rw [hb]
    simp only
    ring
  · obtain ⟨angles, hangles, _, hval⟩ :=
      publish_scan_angles_ok n false (scan_bounds M_PI w ((180 - (w : ℚ)) / 2) k).1
        (scan_bounds M_PI w ((180 - (w : ℚ)) / 2) k).2 h2 h181
    refine ⟨angles, hangles, ?_, ?_⟩
    · rw [hval 0 (by omega)]
      simp
    · rw [hval (n - 1) (by omega)]
      simp only [Bool.false_eq_true, if_false]
      rw [last_angle _ _ n h2]
  · rw [scan_bounds_full M_PI 180 _ 0 (fun _ => rfl)]
    norm_num
    constructor <;> ring
  · obtain ⟨angles, hangles, _, hval⟩ :=
      publish_scan_angles_ok 181 false (-M_PI / 2) (M_PI / 2) (by omega) (by omega)
    refine ⟨angles, hangles, ?_, ?_⟩
    · rw [hval 0 (by omega)]
      simp
    · rw [hval 180 (by omega)]
      simp only [Bool.false_eq_true, if_false]
      exact congrArg some (last_angle (-M_PI / 2) (M_PI / 2) 181 (by omega))

/-- Witness of C3: scan width 180, partial scan index 0, 181 samples. -/
theorem scan_angles_reach_bounds_witness :
    2 ≤ 181 ∧ 181 ≤ 181 ∧ ((180 : Int) = 180 → 0 = 0) ∧
    scan_bounds 3 180 ((180 - ((180 : Int) : ℚ)) / 2) 0 = (-3 / 2, 3 / 2) ∧
    (∃ angles, publish_scan_angles 181 false (-3 / 2) (3 / 2) = .ok angles ∧
      angles[0]? = some ((-3 : ℚ) / 2) ∧ angles[180]? = some ((3 : ℚ) / 2)) :=
  ⟨by decide, by decide, fun _ => rfl,
    (scan_angles_reach_bounds 3 180 181 0 resolution_code SICK_MEASURING_UNITS_MM 1
      (by decide) (by decide) (fun _ => rfl)).2.2.2.2⟩

/-- C4, as stated, fails: with `angle_min = 0 < 1 = angle_max`, `inverted` and 182 samples,
the fill of `angles[181]` runs past the array and no angle sequence results. -/
theorem inverted_angles_past_capacity :
    (0 : ℚ) < 1 ∧ 2 ≤ 182 ∧
    publish_scan_angles 182 true 0 1 = .error Fault.indexOutOfRange ∧
    ¬ ∃ angles, publish_scan_angles 182 true 0 1 = .ok angles := by
  have h := publish_scan_angles_overflow 182 true 0 1 (by decide) (by decide)
  refine ⟨by norm_num, by decide, h, ?_⟩
  rintro ⟨angles, hangles⟩
  rw [h] at hangles
  exact Except.noConfusion hangles

/-- C4, amended: for bounds `angle_min < angle_max` and a sample count `n` with
`2 ≤ n ≤ 181`, `publish_scan` with `inverted = true` fills `angles` so that sample 0 is the
supplied `angle_max`, sample `n-1` is the supplied `angle_min`, the angle of sample `j` is
strictly below that of sample `i` whenever `i < j < n`, and the inverted angle of a sample
equals the non-inverted angle of sample `n-1` minus its index. -/
theorem inverted_angles_mirror (angle_min angle_max : ℚ) (n i j : Nat)
    (hlt : angle_min < angle_max) (h2 : 2 ≤ n) (h181 : n ≤ 181) (hij : i < j) (hj : j < n) :
    ∃ inv fwd, publish_scan_angles n true angle_min angle_max = .ok inv ∧
      publish_scan_angles n false angle_min angle_max = .ok fwd ∧
      inv[0]? = some angle_max ∧ inv[n - 1]? = some angle_min ∧
      (∃ a b, inv[i]? = some a ∧ inv[j]? = some b ∧ b < a) ∧
      (∃ a, inv[i]? = some a ∧ fwd[n - 1 - i]? = some a) ∧
      (∃ b, inv[j]? = some b ∧ fwd[n - 1 - j]? = some b) := by
  obtain ⟨inv, hinv, _, hvi⟩ := publish_scan_angles_ok n true angle_min angle_max h2 h181
  obtain ⟨fwd, hfwd, _, hvf⟩ := publish_scan_angles_ok n false angle_min angle_max h2 h181
  simp only [if_true] at hvi
  simp only [Bool.false_eq_true, if_false] at hvf
  refine ⟨inv, fwd, hinv, hfwd, ?_, ?_, ?_, ?_, ?_⟩
  · rw [hvi 0 (by omega)]
    simp
  · rw [hvi (n - 1) (by omega), last_angle _ _ n h2]
  · exact ⟨_, _, hvi i (by omega), hvi j hj,
      decreasing_angle angle_min angle_max n i j hlt h2 hij⟩
  · refine ⟨_, hvi i (by omega), ?_⟩
    rw [hvf (n - 1 - i) (by omega), mirrored_angle angle_min angle_max n i h2 (by omega)]
  · refine ⟨_, hvi j hj, ?_⟩
    rw [hvf (n - 1 - j) (by omega), mirrored_angle angle_min angle_max n j h2 hj]

/-- Witness of C4 amended: bounds 0 and 3, four samples, samples 1 and 3. -/
theorem inverted_angles_mirror_witness :
    (0 : ℚ) < 3 ∧ 2 ≤ 4 ∧ 4 ≤ 181 ∧ 1 < 3 ∧ 3 < 4 ∧
    ∃ inv fwd, publish_scan_angles 4 true 0 3 = .ok inv ∧
      publish_scan_angles 4 false 0 3 = .ok fwd ∧
      inv[0]? = some (3 : ℚ) ∧ inv[4 - 1]? = some (0 : ℚ) ∧
      (∃ a b, inv[1]? = some a ∧ inv[3]? = some b ∧ b < a) ∧
      (∃ a, inv[1]? = some a ∧ fwd[4 - 1 - 1]? = some a) ∧
      (∃ b, inv[3]? = some b ∧ fwd[4 - 1 - 3]? = some b) :=
  ⟨by norm_num, by decide, by decide, by decide, by decide,
    inverted_angles_mirror 0 3 4 1 3 (by norm_num) (by decide) (by decide) (by decide)
      (by decide)⟩

/-- C9: for scan width 180 (angle offset 0) and a partial scan index `k ≤ 3` the main loop
computes `angle_min = (-90 + 0.25 k) * M_PI / 180` and
`angle_max = (90 - fmod (1 - 0.25 k) 1) * M_PI / 180`, where `fmod` gives the fractional
part; in degrees `-90 ≤ angle_min < angle_max ≤ 90`, the span is 180 for `k = 0` and 179
for `k = 1, 2, 3`, and so for `M_PI > 0` in radians; hence in a batch of 181 samples at
`k = 0`, and of 180 samples at `k = 1, 2, 3`, `publish_scan` (not inverted) puts sample `i`
at `angle_min + i` degrees: the increment is one degree. -/
theorem partial_scan_bounds (M_PI : ℚ) (k i : Nat) (hk : k ≤ 3) (hpi : 0 < M_PI)
    (hi : i < (if k = 0 then 181 else 180)) :
    scan_bounds M_PI 180 0 k =
      ((-90 + (1 / 4) * (k : ℚ)) * M_PI / 180,
       (90 - fmod (1 - (1 / 4) * (k : ℚ)) 1) * M_PI / 180) ∧
    fmod (1 - (1 / 4) * (k : ℚ)) 1 = Int.fract (1 - (1 / 4) * (k : ℚ)) ∧
    (-90 : ℚ) ≤ -90 + (1 / 4) * (k : ℚ) ∧
    -90 + (1 / 4) * (k : ℚ) < 90 - fmod (1 - (1 / 4) * (k : ℚ)) 1 ∧
    90 - fmod (1 - (1 / 4) * (k : ℚ)) 1 ≤ 90 ∧
    (90 - fmod (1 - (1 / 4) * (k : ℚ)) 1) - (-90 + (1 / 4) * (k : ℚ)) =
      (if k = 0 then 180 else 179) ∧
    (-90) * M_PI / 180 ≤ (scan_bounds M_PI 180 0 k).1 ∧
    (scan_bounds M_PI 180 0 k).1 < (scan_bounds M_PI 180 0 k).2 ∧
    (scan_bounds M_PI 180 0 k).2 ≤ 90 * M_PI / 180 ∧
    (scan_bounds M_PI 180 0 k).2 - (scan_bounds M_PI 180 0 k).1 =
      (if k = 0 then 180 else 179) * M_PI / 180 ∧
    ∃ angles,
      publish_scan_angles (if k = 0 then 181 else 180) false
        (scan_bounds M_PI 180 0 k).1 (scan_bounds M_PI 180 0 k).2 = .ok angles ∧
      angles[i]? = some ((scan_bounds M_PI 180 0 k).1 + 1 * M_PI / 180 * (i : ℚ)) := by
  have hb := scan_bounds_interleaved M_PI k
  have hf := fmod_of_index k hk
  obtain ⟨angles, hangles, _, hval⟩ :=
    publish_scan_angles_ok (if k = 0 then 181 else 180) false
      (scan_bounds M_PI 180 0 k).1 (scan_bounds M_PI 180 0 k).2
      (by split_ifs <;> omega) (by split_ifs <;> omega)
  have hvi := hval i hi
  simp only [Bool.false_eq_true, if_false] at hvi
  by_cases h0 : k = 0
  · subst h0
    simp only [if_true] at hf hvi hangles ⊢
    rw [hb, hf] at *
    simp only [Nat.cast_zero, mul_zero, add_zero, sub_zero] at *
    refine ⟨trivial, ?_, le_refl _, by norm_num, le_refl _, by norm_num, le_refl _, ?_,
      le_refl _, by ring, angles, hangles, ?_⟩
    · simp
    · linarith
    · rw [hvi]
      refine congrArg some ?_
      have hd : ((181 - 1 : Nat) : ℚ) = 180 := by norm_num
      rw [hd]
      ring
  · have hk1 : (1 : ℚ) ≤ (k : ℚ) := by
      have : 1 ≤ k := by omega
      exact_mod_cast this
    have hk3 : (k : ℚ) ≤ 3 := by exact_mod_cast hk
    simp only [h0, if_false] at hf hvi hangles ⊢
    rw [hb, hf] at *
    simp only at *
    have hm1 : M_PI ≤ (k : ℚ) * M_PI := by nlinarith
    have hm3 : (k : ℚ) * M_PI ≤ 3 * M_PI := by nlinarith
    refine ⟨trivial, ?_, by linarith, by linarith, by linarith, by ring, by linarith,
      by linarith, by linarith, by ring, angles, hangles, ?_⟩
    · exact (fract_of_lt_one _ (by linarith) (by linarith)).symm
    · rw [hvi]
      refine congrArg some ?_
      have hd : ((180 - 1 : Nat) : ℚ) = 179 := by norm_num
      rw [hd]
      ring

/-- Witness of C9: partial scan index 2, sample 5, and 22/7 for `M_PI`. -/
theorem partial_scan_bounds_witness :
    2 ≤ 3 ∧ (0 : ℚ) < 22 / 7 ∧ 5 < (if 2 = 0 then 181 else 180) ∧
    scan_bounds (22 / 7) 180 0 2 =
      ((-90 + (1 / 4) * ((2 : Nat) : ℚ)) * (22 / 7) / 180,
       (90 - fmod (1 - (1 / 4) * ((2 : Nat) : ℚ)) 1) * (22 / 7) / 180) ∧
    (scan_bounds (22 / 7) 180 0 2).2 - (scan_bounds (22 / 7) 180 0 2).1 =
      (if 2 = 0 then 180 else 179) * (22 / 7) / 180 :=
  ⟨by decide, by norm_num, by decide,
    (partial_scan_bounds (22 / 7) 2 5 (by decide) (by norm_num) (by decide)).1,
    (partial_scan_bounds (22 / 7) 2 5 (by decide) (by norm_num) (by decide)).2.2.2.2.2.2.2.2.2.1⟩

/-- C1, evaluated on the code: the label of the fault `case` is the value of
`8191 || 8190 || 8189 || 8187 || 8186 || 8183`, which is 1, so each of the six reserved codes
takes the `default` branch and is scaled like a range; in a run of `main` with unit mm,
width 180 and the batch `[1000, 8191, 2000]` the middle point published is
`8191 * 0.001 * (cos 0, sin 0)`, not the zero point. -/
theorem fault_code_published_as_range (cos sin : ℚ → ℚ) (M_PI scale angle now : ℚ)
    (DoubleToSickScanResolution : ℚ → sick_lms_2xx_scan_resolution_t) :
    fault_case_label = 1 ∧
    [8183, 8186, 8187, 8189, 8190, 8191].map
        (fun c => switch_point cos sin c scale angle) =
      [8183, 8186, 8187, 8189, 8190, 8191].map
        (fun c : Nat => ({ x := (c : ℚ) * scale * cos angle
                           y := (c : ℚ) * scale * sin angle
                           z := 0 } : Point)) ∧
    main cos sin M_PI DoubleToSickScanResolution SICK_MEASURING_UNITS_MM 180 1 false 0 "laser"
        [{ range_values := [1000, 8191, 2000], n_range_values := 3, partial_scan_index := 0,
           now := now }] =
      .ok { status := 0, error := none,
            published := [{
              frame_id := "laser", stamp := now - (1 / 75) / 2 + 0, ns := "sicklms",
              points := [
                { x := (1000 : ℚ) * (1 / 1000) * cos (-M_PI / 2)
                  y := (1000 : ℚ) * (1 / 1000) * sin (-M_PI / 2), z := 0 },
                { x := (8191 : ℚ) * (1 / 1000) * cos 0
                  y := (8191 : ℚ) * (1 / 1000) * sin 0, z := 0 },
                { x := (2000 : ℚ) * (1 / 1000) * cos (M_PI / 2)
                  y := (2000 : ℚ) * (1 / 1000) * sin (M_PI / 2), z := 0 }] }] } := by
  refine ⟨fault_case_label_eq, ?_, ?_⟩
  · simp only [List.map_cons, List.map_nil]
    rw [switch_point_default cos sin 8183 scale angle (by decide),
      switch_point_default cos sin 8186 scale angle (by decide),
      switch_point_default cos sin 8187 scale angle (by decide),
      switch_point_default cos sin 8189 scale angle (by decide),
      switch_point_default cos sin 8190 scale angle (by decide),
      switch_point_default cos sin 8191 scale angle (by decide)]
  · rw [main_three, switch_point_default cos sin 1000 _ _ (by decide),
      switch_point_default cos sin 8191 _ _ (by decide),
      switch_point_default cos sin 2000 _ _ (by decide)]
    simp only [Nat.cast_ofNat]

/-- C2, evaluated on the code: the raw value 1, which is none of the six reserved codes,
matches the label of the fault `case` and is published as the zero point; in a run of `main`
with unit mm, width 180 and the batch `[5, 1, 8192]` the middle point is `(0, 0)`, not
`1 * 0.001 * (cos 0, sin 0)`, while 5 and 8192 are scaled by `raw * scale`. -/
theorem range_one_published_as_fault (cos sin : ℚ → ℚ) (M_PI scale angle now : ℚ)
    (DoubleToSickScanResolution : ℚ → sick_lms_2xx_scan_resolution_t) :
    switch_point cos sin 1 scale angle = { x := 0, y := 0, z := 0 } ∧
    main cos sin M_PI DoubleToSickScanResolution SICK_MEASURING_UNITS_MM 180 1 false 0 "laser"
        [{ range_values := [5, 1, 8192], n_range_values := 3, partial_scan_index := 0,
           now := now }] =
      .ok { status := 0, error := none,
            published := [{
              frame_id := "laser", stamp := now - (1 / 75) / 2 + 0, ns := "sicklms",
              points := [
                { x := (5 : ℚ) * (1 / 1000) * cos (-M_PI / 2)
                  y := (5 : ℚ) * (1 / 1000) * sin (-M_PI / 2), z := 0 },
                { x := 0, y := 0, z := 0 },
                { x := (8192 : ℚ) * (1 / 1000) * cos (M_PI / 2)
                  y := (8192 : ℚ) * (1 / 1000) * sin (M_PI / 2), z := 0 }] }] } := by
  refine ⟨switch_point_one cos sin scale angle, ?_⟩
  rw [main_three, switch_point_default cos sin 5 _ _ (by decide), switch_point_one,
    switch_point_default cos sin 8192 _ _ (by decide)]
  simp only [Nat.cast_ofNat]

/-- C6: the sweep start of the main loop is `end_of_scan - scan_time / 2 + time_offset`;
shifting the end-of-scan timestamp by `δ` shifts it by `δ`, shifting the time offset by `δ`
shifts it by `δ`, and it is the stamp of the marker an iteration publishes. -/
theorem scan_start_linear (t d o δ : ℚ) (cos sin : ℚ → ℚ) (M_PI : ℚ) (setup : Setup)
    (angle : Int) (inverted : Bool) (frame_id : String) (a : Acquisition) :
    scan_start t d o = t - d / 2 + o ∧
    scan_start (t + δ) d o = scan_start t d o + δ ∧
    scan_start t d (o + δ) = scan_start t d o + δ ∧
    Except.map Marker.stamp
        (scan_iteration cos sin M_PI setup angle inverted o frame_id a) =
      Except.map (fun _ => a.now - setup.scan_time / 2 + o)
        (scan_iteration cos sin M_PI setup angle inverted o frame_id a) := by
  refine ⟨rfl, ?_, ?_, ?_⟩
  · unfold scan_start
    ring
  · unfold scan_start
    ring
  · unfold scan_iteration
    exact publish_scan_stamp _ _ _ _ _ _ _ _ _ _ _

/-- C5, as stated, fails: at scan width 180 a resolution of 0.5 degree gives a scan time of
`1/75` s, not `2/75` s. -/
theorem scan_time_width_180_half_degree :
    resolution_code (1 / 2) = SICK_SCAN_RESOLUTION_50 ∧
    compute_scan_time resolution_code 180 (1 / 2) = .ok (1 / 75) ∧
    compute_scan_time resolution_code 180 (1 / 2) ≠ .ok (2 / 75) ∧
    startup resolution_code SICK_MEASURING_UNITS_MM 180 (1 / 2) =
      .ok { scale := 1 / 1000, scan_time := 1 / 75, angle_increment := 1,
            angle_offset := 0 } := by
  refine ⟨resolution_code_half, compute_scan_time_180 _ _, ?_, startup_mm_180 _ _⟩
  rw [compute_scan_time_180]
  intro h
  have h2 : (1 / 75 : ℚ) = 2 / 75 := Except.ok.inj h
  norm_num at h2

/-- C5, amended: for a resolved scan width other than 180, the scan time computed at
startup is `1/75` s when the resolution is the 1.0 degree code, `2/75` s for the 0.5 degree
code and `4/75` s for the 0.25 degree code, and it is the `scan_time` of the setup when the
units are mm or cm; for scan width 180 it is `1/75` s for every resolution; it is a function
of the configuration. -/
theorem scan_time_by_resolution
    (DoubleToSickScanResolution : ℚ → sick_lms_2xx_scan_resolution_t)
    (u : sick_lms_2xx_measuring_units_t) (angle : Int) (r100 r50 r25 r : ℚ)
    (hangle : angle ≠ 180) (hu : u ≠ SICK_MEASURING_UNITS_UNKNOWN)
    (h100 : DoubleToSickScanResolution r100 = SICK_SCAN_RESOLUTION_100)
    (h50 : DoubleToSickScanResolution r50 = SICK_SCAN_RESOLUTION_50)
    (h25 : DoubleToSickScanResolution r25 = SICK_SCAN_RESOLUTION_25) :
    compute_scan_time DoubleToSickScanResolution angle r100 = .ok (1 / 75) ∧
    compute_scan_time DoubleToSickScanResolution angle r50 = .ok (2 / 75) ∧
    compute_scan_time DoubleToSickScanResolution angle r25 = .ok (4 / 75) ∧
    compute_scan_time DoubleToSickScanResolution 180 r = .ok (1 / 75) ∧
    Except.map Setup.scan_time (startup DoubleToSickScanResolution u angle r100) =
      .ok (1 / 75) ∧
    Except.map Setup.scan_time (startup DoubleToSickScanResolution u angle r50) =
      .ok (2 / 75) ∧
    Except.map Setup.scan_time (startup DoubleToSickScanResolution u angle r25) =
      .ok (4 / 75) ∧
    Except.map Setup.scan_time (startup DoubleToSickScanResolution u 180 r) = .ok (1 / 75) ∧
    compute_scan_time DoubleToSickScanResolution angle r =
      compute_scan_time DoubleToSickScanResolution angle r := by
  have t100 := (compute_scan_time_of_code DoubleToSickScanResolution angle r100 hangle).1 h100
  have t50 := (compute_scan_time_of_code DoubleToSickScanResolution angle r50 hangle).2.1 h50
  have t25 := (compute_scan_time_of_code DoubleToSickScanResolution angle r25 hangle).2.2 h25
  have t180 := compute_scan_time_180 DoubleToSickScanResolution r
  exact ⟨t100, t50, t25, t180,
    startup_scan_time _ u angle r100 _ hu t100, startup_scan_time _ u angle r50 _ hu t50,
    startup_scan_time _ u angle r25 _ hu t25, startup_scan_time _ u 180 r _ hu t180, rfl⟩

/-- Witness of C5 amended: scan width 100, unit mm, resolutions 1, 1/2 and 1/4 degree. -/
theorem scan_time_by_resolution_witness :
    (100 : Int) ≠ 180 ∧ SICK_MEASURING_UNITS_MM ≠ SICK_MEASURING_UNITS_UNKNOWN ∧
    resolution_code 1 = SICK_SCAN_RESOLUTION_100 ∧
    resolution_code (1 / 2) = SICK_SCAN_RESOLUTION_50 ∧
    resolution_code (1 / 4) = SICK_SCAN_RESOLUTION_25 ∧
    compute_scan_time resolution_code 100 1 = .ok (1 / 75) ∧
    compute_scan_time resolution_code 100 (1 / 2) = .ok (2 / 75) ∧
    compute_scan_time resolution_code 100 (1 / 4) = .ok (4 / 75) ∧
    compute_scan_time resolution_code 180 (3 / 10) = .ok (1 / 75) :=
  have h := scan_time_by_resolution resolution_code SICK_MEASURING_UNITS_MM 100 1 (1 / 2)
    (1 / 4) (3 / 10) (by decide) (by decide) resolution_code_one resolution_code_half
    resolution_code_quarter
  ⟨by decide, by decide, resolution_code_one, resolution_code_half, resolution_code_quarter,
    h.1, h.2.1, h.2.2.1, h.2.2.2.1⟩

/-- C7: the scale chosen at startup is 0.001 for millimeter and 0.01 for centimeter, and it
is the `scale` of the setup; for every other unit value, which is what
`StringToLmsMeasuringUnits` returns for every string other than "mm" and "cm", startup fails
with "Invalid measuring unit." and `main` returns 1 without publishing a scan. -/
theorem scale_by_units (cos sin : ℚ → ℚ) (M_PI : ℚ)
    (DoubleToSickScanResolution : ℚ → sick_lms_2xx_scan_resolution_t)
    (angle : Int) (resolution : ℚ) (inverted : Bool) (time_offset : ℚ) (frame_id : String)
    (batches : List Acquisition) (u : sick_lms_2xx_measuring_units_t) (units : String)
    (hmm : u ≠ SICK_MEASURING_UNITS_MM) (hcm : u ≠ SICK_MEASURING_UNITS_CM)
    (hsmm : units ≠ "mm") (hscm : units ≠ "cm") :
    choose_scale SICK_MEASURING_UNITS_MM = .ok (1 / 1000) ∧
    choose_scale SICK_MEASURING_UNITS_CM = .ok (1 / 100) ∧
    Except.map Setup.scale
        (startup DoubleToSickScanResolution SICK_MEASURING_UNITS_MM angle resolution) =
      Except.map (fun _ => 1 / 1000)
        (startup DoubleToSickScanResolution SICK_MEASURING_UNITS_MM angle resolution) ∧
    Except.map Setup.scale
        (startup DoubleToSickScanResolution SICK_MEASURING_UNITS_CM angle resolution) =
      Except.map (fun _ => 1 / 100)
        (startup DoubleToSickScanResolution SICK_MEASURING_UNITS_CM angle resolution) ∧
    StringToLmsMeasuringUnits "mm" = SICK_MEASURING_UNITS_MM ∧
    StringToLmsMeasuringUnits "cm" = SICK_MEASURING_UNITS_CM ∧
    StringToLmsMeasuringUnits units = SICK_MEASURING_UNITS_UNKNOWN ∧
    choose_scale u = .error ⟨"Invalid measuring unit.", 1⟩ ∧
    startup DoubleToSickScanResolution u angle resolution =
      .error ⟨"Invalid measuring unit.", 1⟩ ∧
    main cos sin M_PI DoubleToSickScanResolution u angle resolution inverted time_offset
        frame_id batches =
      .ok { status := 1, error := some "Invalid measuring unit.", published := [] } := by
  have he := choose_scale_of_ne u hmm hcm
  have hst : startup DoubleToSickScanResolution u angle resolution =
      .error ⟨"Invalid measuring unit.", 1⟩ := by
    simp only [startup, he]
  refine ⟨rfl, rfl, startup_scale _ _ _ _ _ rfl, startup_scale _ _ _ _ _ rfl, by decide,
    by decide, ?_, he, hst, ?_⟩
  · simp only [StringToLmsMeasuringUnits, hsmm, hscm, if_false]
  · exact main_of_startup_error cos sin M_PI _ u angle resolution inverted time_offset
      frame_id batches _ hst

/-- Witness of C7: the unit value unknown and the string "inch". -/
theorem scale_by_units_witness :
    SICK_MEASURING_UNITS_UNKNOWN ≠ SICK_MEASURING_UNITS_MM ∧
    SICK_MEASURING_UNITS_UNKNOWN ≠ SICK_MEASURING_UNITS_CM ∧
    "inch" ≠ "mm" ∧ "inch" ≠ "cm" ∧
    StringToLmsMeasuringUnits "inch" = SICK_MEASURING_UNITS_UNKNOWN ∧
    choose_scale SICK_MEASURING_UNITS_UNKNOWN = .error ⟨"Invalid measuring unit.", 1⟩ ∧
    main (fun _ => 1) (fun _ => 0) (22 / 7) resolution_code SICK_MEASURING_UNITS_UNKNOWN 180 1
        false 0 "laser"
        [{ range_values := [1000, 2000], n_range_values := 2, partial_scan_index := 0,
           now := 0 }] =
      .ok { status := 1, error := some "Invalid measuring unit.", published := [] } :=
  have h := scale_by_units (fun _ => 1) (fun _ => 0) (22 / 7) resolution_code 180 1 false 0
    "laser"
    [{ range_values := [1000, 2000], n_range_values := 2, partial_scan_index := 0, now := 0 }]
    SICK_MEASURING_UNITS_UNKNOWN "inch" (by decide) (by decide) (by decide) (by decide)
  ⟨by decide, by decide, by decide, by decide, h.2.2.2.2.2.2.1, h.2.2.2.2.2.2.2.1,
    h.2.2.2.2.2.2.2.2.2⟩

/-- C8, as stated, fails: at scan width 180 a resolution of 0.3 degree, which is none of the
three recognised values, does not fail the computation of the scan time; startup succeeds
with a scan time of `1/75` s. -/
theorem bogus_resolution_accepted_at_width_180 :
    resolution_code (3 / 10) = SICK_SCAN_RESOLUTION_UNKNOWN ∧
    compute_scan_time resolution_code 180 (3 / 10) = .ok (1 / 75) ∧
    startup resolution_code SICK_MEASURING_UNITS_MM 180 (3 / 10) =
      .ok { scale := 1 / 1000, scan_time := 1 / 75, angle_increment := 1,
            angle_offset := 0 } :=
  ⟨resolution_code_three_tenths, compute_scan_time_180 _ _, startup_mm_180 _ _⟩

/-- C8, amended: for a resolved scan width other than 180 and a resolution that is none of
the three recognised codes, the computation of the scan time fails with
"Bogus scan resolution." and status 1, and with the units mm or cm `main` returns 1 with that
error without publishing a scan; for every recognised resolution, at every scan width, the
computation of the scan time does not fail; and at scan width 180 it does not fail for any
resolution, recognised or not: the scan time is `1/75` s and startup succeeds. -/
theorem bogus_resolution_fatal (cos sin : ℚ → ℚ) (M_PI : ℚ)
    (DoubleToSickScanResolution : ℚ → sick_lms_2xx_scan_resolution_t)
    (angle angle1 : Int) (resolution resolution1 resolution2 : ℚ) (inverted : Bool)
    (time_offset : ℚ) (frame_id : String) (batches : List Acquisition)
    (hangle : angle ≠ 180)
    (h25 : DoubleToSickScanResolution resolution ≠ SICK_SCAN_RESOLUTION_25)
    (h50 : DoubleToSickScanResolution resolution ≠ SICK_SCAN_RESOLUTION_50)
    (h100 : DoubleToSickScanResolution resolution ≠ SICK_SCAN_RESOLUTION_100)
    (hrec : DoubleToSickScanResolution resolution1 = SICK_SCAN_RESOLUTION_25 ∨
      DoubleToSickScanResolution resolution1 = SICK_SCAN_RESOLUTION_50 ∨
      DoubleToSickScanResolution resolution1 = SICK_SCAN_RESOLUTION_100) :
    compute_scan_time DoubleToSickScanResolution angle resolution =
      .error ⟨"Bogus scan resolution.", 1⟩ ∧
    main cos sin M_PI DoubleToSickScanResolution SICK_MEASURING_UNITS_MM angle resolution
        inverted time_offset frame_id batches =
      .ok { status := 1, error := some "Bogus scan resolution.", published := [] } ∧
    main cos sin M_PI DoubleToSickScanResolution SICK_MEASURING_UNITS_CM angle resolution
        inverted time_offset frame_id batches =
      .ok { status := 1, error := some "Bogus scan resolution.", published := [] } ∧
    (∃ t, compute_scan_time DoubleToSickScanResolution angle1 resolution1 = .ok t) ∧
    compute_scan_time DoubleToSickScanResolution 180 resolution2 = .ok (1 / 75) ∧
    startup DoubleToSickScanResolution SICK_MEASURING_UNITS_MM 180 resolution2 =
      .ok { scale := 1 / 1000, scan_time := 1 / 75, angle_increment := 1,
            angle_offset := 0 } ∧
    Except.map Setup.scan_time
        (startup DoubleToSickScanResolution SICK_MEASURING_UNITS_CM 180 resolution2) =
      .ok (1 / 75) := by
  have he := compute_scan_time_bogus DoubleToSickScanResolution angle resolution hangle h25
    h50 h100
  have hmm : choose_scale SICK_MEASURING_UNITS_MM = .ok (1 / 1000) := rfl
  have hcm : choose_scale SICK_MEASURING_UNITS_CM = .ok (1 / 100) := rfl
  have hsmm : startup DoubleToSickScanResolution SICK_MEASURING_UNITS_MM angle resolution =
      .error ⟨"Bogus scan resolution.", 1⟩ := by
    simp only [startup, hmm, he]
  have hscm : startup DoubleToSickScanResolution SICK_MEASURING_UNITS_CM angle resolution =
      .error ⟨"Bogus scan resolution.", 1⟩ := by
    simp only [startup, hcm, he]
  refine ⟨he, ?_, ?_, ?_, compute_scan_time_180 _ _, startup_mm_180 _ _,
    startup_scan_time _ SICK_MEASURING_UNITS_CM 180 resolution2 _ (by decide)
      (compute_scan_time_180 _ _)⟩
  · exact main_of_startup_error cos sin M_PI _ _ angle resolution inverted time_offset
      frame_id batches _ hsmm
  · exact main_of_startup_error cos sin M_PI _ _ angle resolution inverted time_offset
      frame_id batches _ hscm
  · by_cases h180 : angle1 = 180
    · exact ⟨1 / 75, by rw [h180]; exact compute_scan_time_180 _ _⟩
    · have hc := compute_scan_time_of_code DoubleToSickScanResolution angle1 resolution1 h180
      rcases hrec with h | h | h
      · exact ⟨_, hc.2.2 h⟩
      · exact ⟨_, hc.2.1 h⟩
      · exact ⟨_, hc.1 h⟩

/-- Witness of C8 amended: scan width 100 with resolution 0.3 degree, resolution 0.5 degree
for the recognised case, and resolution 0.3 degree at scan width 180. -/
theorem bogus_resolution_fatal_witness :
    (100 : Int) ≠ 180 ∧
    resolution_code (3 / 10) ≠ SICK_SCAN_RESOLUTION_25 ∧
    resolution_code (3 / 10) ≠ SICK_SCAN_RESOLUTION_50 ∧
    resolution_code (3 / 10) ≠ SICK_SCAN_RESOLUTION_100 ∧
    (resolution_code (1 / 2) = SICK_SCAN_RESOLUTION_25 ∨
      resolution_code (1 / 2) = SICK_SCAN_RESOLUTION_50 ∨
      resolution_code (1 / 2) = SICK_SCAN_RESOLUTION_100) ∧
    compute_scan_time resolution_code 100 (3 / 10) = .error ⟨"Bogus scan resolution.", 1⟩ ∧
    main (fun _ => 1) (fun _ => 0) (22 / 7) resolution_code SICK_MEASURING_UNITS_MM 100
        (3 / 10) false 0 "laser"
        [{ range_values := [1000, 2000], n_range_values := 2, partial_scan_index := 0,
           now := 0 }] =
      .ok { status := 1, error := some "Bogus scan resolution.", published := [] } ∧
    (∃ t, compute_scan_time resolution_code 100 (1 / 2) = .ok t) ∧
    compute_scan_time resolution_code 180 (3 / 10) = .ok (1 / 75) ∧
    startup resolution_code SICK_MEASURING_UNITS_MM 180 (3 / 10) =
      .ok { scale := 1 / 1000, scan_time := 1 / 75, angle_increment := 1,
            angle_offset := 0 } :=
  have h := bogus_resolution_fatal (fun _ => 1) (fun _ => 0) (22 / 7) resolution_code 100 100
    (3 / 10) (1 / 2) (3 / 10) false 0 "laser"
    [{ range_values := [1000, 2000], n_range_values := 2, partial_scan_index := 0, now := 0 }]
    (by decide) (by rw [resolution_code_three_tenths]; decide)
    (by rw [resolution_code_three_tenths]; decide)
    (by rw [resolution_code_three_tenths]; decide) (Or.inr (Or.inl resolution_code_half))
  ⟨by decide, by rw [resolution_code_three_tenths]; decide,
    by rw [resolution_code_three_tenths]; decide,
    by rw [resolution_code_three_tenths]; decide, Or.inr (Or.inl resolution_code_half),
    h.1, h.2.1, h.2.2.2.1, h.2.2.2.2.1, h.2.2.2.2.2.1⟩

end SickLMS
